import Mathlib

/-!
# MeepoEmbedding storage interface

A shallow embedding of
`meepo_embedding/include/storage/register/storage_interface_eigen.bak.hpp`:
the `NotImplemented` fallback, the member and weak dispatch definitions, the
signature macros `Expand*Type`, and the facade `StorageInterface`.

Identifiers of the header are kept as strings, so that a name that is used
but never defined can be written down as it stands in the source.
-/

namespace MeepoEmbedding.Storage

/-! ## Types of the signatures -/

/-- Scalar and element types that occur in the signatures of the header. -/
inductive DType
  | int64_t | int32_t | int8_t | float | half | bfloat16
  | uint64_t | int | size_t | bool
  deriving DecidableEq, Repr

/-- Object types a parameter is declared with, before `const` and `*`. -/
inductive Base
  | scalar (d : DType)
  | ArrayX (d : DType)
  | ArrayXX (d : DType)
  | YamlNode
  deriving DecidableEq, Repr

/-- One parameter declaration: `[const] base [*] name`.  For a pointer the
`const` qualifies the pointee, as everywhere in the header. -/
structure Param where
  name : String
  isConst : Bool
  base : Base
  isPointer : Bool
  deriving DecidableEq, Repr

/-- Return types written in the header: `std::error_code`, and
`std::expected<DeviceType, std::error_code>` built from `DeviceType` and it. -/
inductive RetType
  | error_code
  | DeviceType
  | expected (value error : RetType)
  deriving DecidableEq, Repr

/-- A function signature `ret(params...)`. -/
structure Signature where
  ret : RetType
  params : List Param
  deriving DecidableEq, Repr

/-- Declaration `const d name`. -/
def constVal (name : String) (d : DType) : Param :=
  ⟨name, true, .scalar d, false⟩

/-- Declaration `const base *name`. -/
def constPtr (name : String) (b : Base) : Param :=
  ⟨name, true, b, true⟩

/-- Declaration `base *name`. -/
def mutPtr (name : String) (b : Base) : Param :=
  ⟨name, false, b, true⟩

/-! ## The signature macros (lines 98-220) -/

/-- Macro `ExpandFindValueType` (lines 98-100): the signature it expands to. -/
def ExpandFindValueType (key_dtype value_dtype : DType) : Signature :=
  ⟨.error_code,
    [constVal "n_keys" .int, constPtr "keys" (.ArrayX key_dtype),
     mutPtr "values" (.ArrayXX value_dtype)]⟩

/-- Macro `ExpandFindWithMissType` (lines 102-106): the signature it expands to. -/
def ExpandFindWithMissType (key_dtype value_dtype : DType) : Signature :=
  ⟨.error_code,
    [constVal "n_keys" .int, constPtr "keys" (.ArrayX key_dtype),
     mutPtr "values" (.ArrayXX value_dtype),
     mutPtr "missed_keys" (.ArrayX key_dtype),
     mutPtr "missed_indices" (.ArrayX .int), mutPtr "missed_size" (.scalar .int)]⟩

/-- Macro `ExpandFindWithMissScoreType` (lines 108-113): the signature it expands to. -/
def ExpandFindWithMissScoreType (key_dtype value_dtype score_type : DType) : Signature :=
  ⟨.error_code,
    [constVal "n_keys" .int, constPtr "keys" (.ArrayX key_dtype),
     mutPtr "values" (.ArrayXX value_dtype),
     mutPtr "missed_keys" (.ArrayX key_dtype),
     mutPtr "missed_indices" (.ArrayX .int), mutPtr "missed_size" (.scalar .int),
     mutPtr "scores" (.ArrayX score_type)]⟩

/-- Macro `ExpandFindWithExistType` (lines 115-118): the signature it expands to. -/
def ExpandFindWithExistType (key_dtype value_dtype : DType) : Signature :=
  ⟨.error_code,
    [constVal "n_keys" .int, constPtr "keys" (.ArrayX key_dtype),
     mutPtr "values" (.ArrayXX value_dtype),
     mutPtr "exists" (.ArrayX .bool)]⟩

/-- Macro `ExpandFindWithScoreType` (lines 120-123): the signature it expands to. -/
def ExpandFindWithScoreType (key_dtype value_dtype score_type : DType) : Signature :=
  ⟨.error_code,
    [constVal "n_keys" .int, constPtr "keys" (.ArrayX key_dtype),
     mutPtr "values" (.ArrayXX value_dtype),
     mutPtr "scores" (.ArrayX score_type)]⟩

/-- Macro `ExpandFindWithScoreExistType` (lines 125-129): the signature it expands to. -/
def ExpandFindWithScoreExistType (key_dtype value_dtype score_type : DType) : Signature :=
  ⟨.error_code,
    [constVal "n_keys" .int, constPtr "keys" (.ArrayX key_dtype),
     mutPtr "values" (.ArrayXX value_dtype),
     mutPtr "exists" (.ArrayX .bool),
     mutPtr "scores" (.ArrayX score_type)]⟩

/-- Macro `ExpandFindType` (lines 131-137): the list of signatures it expands to. -/
def ExpandFindType (key_dtype value_dtype score_type : DType) : List Signature :=
  [ExpandFindValueType key_dtype value_dtype,
   ExpandFindWithMissType key_dtype value_dtype,
   ExpandFindWithMissScoreType key_dtype value_dtype score_type,
   ExpandFindWithExistType key_dtype value_dtype,
   ExpandFindWithScoreType key_dtype value_dtype score_type,
   ExpandFindWithScoreExistType key_dtype value_dtype score_type]

/-- Macro `ExpandFindOrInsertValueType` (lines 139-141): the signature it expands to. -/
def ExpandFindOrInsertValueType (key_dtype value_dtype : DType) : Signature :=
  ⟨.error_code,
    [constVal "n_keys" .int, constPtr "keys" (.ArrayX key_dtype),
     mutPtr "values" (.ArrayXX value_dtype)]⟩

/-- Macro `ExpandFindOrInsertWithScoreType` (lines 143-146): the signature it expands to. -/
def ExpandFindOrInsertWithScoreType (key_dtype value_dtype score_type : DType) : Signature :=
  ⟨.error_code,
    [constVal "n_keys" .int, constPtr "keys" (.ArrayX key_dtype),
     mutPtr "values" (.ArrayXX value_dtype),
     mutPtr "scores" (.ArrayX score_type)]⟩

/-- Macro `ExpandFindOrInsertWithExistType` (lines 148-151): the signature it expands to. -/
def ExpandFindOrInsertWithExistType (key_dtype value_dtype : DType) : Signature :=
  ⟨.error_code,
    [constVal "n_keys" .int, constPtr "keys" (.ArrayX key_dtype),
     mutPtr "values" (.ArrayXX value_dtype),
     mutPtr "exists" (.ArrayX .bool)]⟩

/-- Macro `ExpandFindOrInsertWithScoreExistType` (lines 153-158): the signature it expands to. -/
def ExpandFindOrInsertWithScoreExistType (key_dtype value_dtype score_type : DType) :
    Signature :=
  ⟨.error_code,
    [constVal "n_keys" .int, constPtr "keys" (.ArrayX key_dtype),
     mutPtr "values" (.ArrayXX value_dtype),
     mutPtr "exists" (.ArrayX .bool),
     mutPtr "scores" (.ArrayX score_type)]⟩

/-- Macro `ExpandFindOrInsertType` (lines 160-164): the list of signatures it expands to. -/
def ExpandFindOrInsertType (key_dtype value_dtype score_type : DType) : List Signature :=
  [ExpandFindOrInsertValueType key_dtype value_dtype,
   ExpandFindOrInsertWithScoreType key_dtype value_dtype score_type,
   ExpandFindOrInsertWithExistType key_dtype value_dtype,
   ExpandFindOrInsertWithScoreExistType key_dtype value_dtype score_type]

/-- Macro `ExpandContainsType` (lines 166-168): the signature it expands to. -/
def ExpandContainsType (key_dtype : DType) : Signature :=
  ⟨.error_code,
    [constVal "n_keys" .size_t, constPtr "keys" (.ArrayX key_dtype),
     mutPtr "exists" (.ArrayX .bool)]⟩

/-- Macro `ExpandAssignType` (lines 170-173): the signature it expands to. -/
def ExpandAssignType (key_dtype value_dtype score_type : DType) : Signature :=
  ⟨.error_code,
    [constVal "n_keys" .size_t, constPtr "keys" (.ArrayX key_dtype),
     constPtr "values" (.ArrayXX value_dtype),
     constPtr "scores" (.ArrayX score_type)]⟩

/-- Macro `ExpandAssignValuesType` (lines 175-177): the signature it expands to. -/
def ExpandAssignValuesType (key_dtype value_dtype : DType) : Signature :=
  ⟨.error_code,
    [constVal "n_keys" .size_t, constPtr "keys" (.ArrayX key_dtype),
     constPtr "values" (.ArrayXX value_dtype)]⟩

/-- Macro `ExpandAssignScoresType` (lines 179-181): the signature it expands to. -/
def ExpandAssignScoresType (key_dtype score_type : DType) : Signature :=
  ⟨.error_code,
    [constVal "n_keys" .size_t, constPtr "keys" (.ArrayX key_dtype),
     constPtr "scores" (.ArrayX score_type)]⟩

/-- Macro `ExpandInsertAndEvictType` (lines 183-190): the signature it expands to. -/
def ExpandInsertAndEvictType (key_dtype value_dtype score_type : DType) : Signature :=
  ⟨.error_code,
    [constVal "n_keys" .size_t, constPtr "keys" (.ArrayX key_dtype),
     constPtr "values" (.ArrayXX value_dtype),
     constPtr "scores" (.ArrayX score_type),
     mutPtr "evicted_keys" (.ArrayX key_dtype),
     mutPtr "evicted_values" (.ArrayXX value_dtype),
     mutPtr "evicted_scores" (.ArrayX score_type),
     mutPtr "evicted_size" (.scalar .size_t)]⟩

/-- Macro `ExpandInsertOrAssignType` (lines 192-195): the signature it expands to. -/
def ExpandInsertOrAssignType (key_dtype value_dtype score_type : DType) : Signature :=
  ⟨.error_code,
    [constVal "n_keys" .size_t, constPtr "keys" (.ArrayX key_dtype),
     constPtr "values" (.ArrayXX value_dtype),
     constPtr "scores" (.ArrayX score_type)]⟩

/-- Macro `ExpandAccumOrAssignType` (lines 197-201): the signature it expands to. -/
def ExpandAccumOrAssignType (key_dtype value_dtype score_type : DType) : Signature :=
  ⟨.error_code,
    [constVal "n_keys" .size_t, constPtr "keys" (.ArrayX key_dtype),
     constPtr "values" (.ArrayXX value_dtype),
     constPtr "accum_or_assigns" (.ArrayX .bool),
     constPtr "scores" (.ArrayX score_type)]⟩

/-- Macro `ExpandEraseType` (lines 203-204): the signature it expands to. -/
def ExpandEraseType (key_dtype : DType) : Signature :=
  ⟨.error_code,
    [constVal "n_keys" .size_t, constPtr "keys" (.ArrayX key_dtype)]⟩

/-- Macro `ExpandEraseIfType` (lines 206-207): the signature it expands to. -/
def ExpandEraseIfType (key_dtype score_dtype : DType) : Signature :=
  ⟨.error_code, [constVal "pattern" key_dtype, constVal "threshold" score_dtype]⟩

/-- Macro `ExpandExportBatchType` (lines 209-213): the signature it expands to. -/
def ExpandExportBatchType (key_dtype value_dtype score_type : DType) : Signature :=
  ⟨.error_code,
    [constVal "max_batch_size" .size_t, constVal "cursor_offset" .size_t,
     mutPtr "exported_batch_size" (.scalar .size_t),
     constPtr "keys" (.ArrayX key_dtype),
     mutPtr "values" (.ArrayXX value_dtype), mutPtr "scores" (.ArrayX score_type)]⟩

/-- Macro `ExpandExportBatchIfType` (lines 215-220): the signature it expands to. -/
def ExpandExportBatchIfType (key_dtype value_dtype score_type : DType) : Signature :=
  ⟨.error_code,
    [constVal "pattern" key_dtype, constVal "threshold" score_type,
     constVal "max_batch_size" .size_t, constVal "cursor_offset" .size_t,
     mutPtr "exported_batch_size" (.scalar .size_t),
     constPtr "keys" (.ArrayX key_dtype),
     mutPtr "values" (.ArrayXX value_dtype), mutPtr "scores" (.ArrayX score_type)]⟩

/-! ## The facade (lines 223-316) -/

/-- One `add_convention<Dispatch, Overloads...>` of the facade builder: the
dispatch identifier as written, and the overload signatures in order. -/
structure Convention where
  dispatch : String
  overloads : List Signature
  deriving DecidableEq, Repr

open DType in
/-- The facade `StorageInterface`, convention by convention in source order. -/
def StorageInterface : List Convention :=
  [ ⟨"WeakMemInit", [⟨.error_code, [constPtr "config" .YamlNode]⟩]⟩,
    ⟨"WeakMemDevice", [⟨.expected .DeviceType .error_code, []⟩]⟩,
    ⟨"WeakMemDim", [⟨.error_code, []⟩]⟩,
    ⟨"WeakMemFind",
      ExpandFindType int64_t int64_t uint64_t ++
      ExpandFindType int64_t int32_t uint64_t ++
      ExpandFindType int64_t int8_t uint64_t ++
      ExpandFindType int64_t float uint64_t ++
      ExpandFindType int64_t half uint64_t ++
      ExpandFindType int64_t bfloat16 uint64_t⟩,
    ⟨"WeakMemContains", [ExpandContainsType int64_t]⟩,
    ⟨"WeakMemAssign",
      [ExpandAssignType int64_t int64_t uint64_t,
       ExpandAssignType int64_t int32_t uint64_t,
       ExpandAssignType int64_t int8_t uint64_t,
       ExpandAssignType int64_t float uint64_t,
       ExpandAssignType int64_t half uint64_t,
       ExpandAssignType int64_t bfloat16 uint64_t]⟩,
    ⟨"WeakMemAssignValue",
      [ExpandAssignValuesType int64_t int64_t,
       ExpandAssignValuesType int64_t int32_t,
       ExpandAssignValuesType int64_t int8_t,
       ExpandAssignValuesType int64_t float,
       ExpandAssignValuesType int64_t half,
       ExpandAssignValuesType int64_t bfloat16]⟩,
    ⟨"WeakMemAssignScores", [ExpandAssignScoresType int64_t uint64_t]⟩,
    ⟨"WeakMemFindOrInsert",
      ExpandFindOrInsertType int64_t int64_t uint64_t ++
      ExpandFindOrInsertType int64_t int32_t uint64_t ++
      ExpandFindOrInsertType int64_t int8_t uint64_t ++
      ExpandFindOrInsertType int64_t float uint64_t ++
      ExpandFindOrInsertType int64_t half uint64_t ++
      ExpandFindOrInsertType int64_t bfloat16 uint64_t⟩,
    ⟨"WeakMemInsertAndEvict",
      [ExpandInsertAndEvictType int64_t int64_t uint64_t,
       ExpandInsertAndEvictType int64_t int32_t uint64_t,
       ExpandInsertAndEvictType int64_t int8_t uint64_t,
       ExpandInsertAndEvictType int64_t float uint64_t,
       ExpandInsertAndEvictType int64_t half uint64_t,
       ExpandInsertAndEvictType int64_t bfloat16 uint64_t]⟩,
    ⟨"WeakMemInsertOrAssign",
      [ExpandInsertOrAssignType int64_t int64_t uint64_t,
       ExpandInsertOrAssignType int64_t int32_t uint64_t,
       ExpandInsertOrAssignType int64_t int8_t uint64_t,
       ExpandInsertOrAssignType int64_t float uint64_t,
       ExpandInsertOrAssignType int64_t half uint64_t,
       ExpandInsertOrAssignType int64_t bfloat16 uint64_t]⟩,
    ⟨"WeakMemAccumOrAssign",
      [ExpandAccumOrAssignType int64_t int64_t uint64_t,
       ExpandAccumOrAssignType int64_t int32_t uint64_t,
       ExpandAccumOrAssignType int64_t int8_t uint64_t,
       ExpandAccumOrAssignType int64_t float uint64_t,
       ExpandAccumOrAssignType int64_t half uint64_t,
       ExpandAccumOrAssignType int64_t bfloat16 uint64_t]⟩,
    ⟨"WeakMemErase", [ExpandEraseType int64_t]⟩,
    ⟨"WeakMemEraseIf", [ExpandEraseIfType int64_t uint64_t]⟩,
    ⟨"WeakMemClear", [⟨.error_code, []⟩]⟩,
    ⟨"WeakMemExportBatch",
      [ExpandExportBatchType int64_t int64_t uint64_t,
       ExpandExportBatchType int64_t int32_t uint64_t,
       ExpandExportBatchType int64_t int8_t uint64_t,
       ExpandExportBatchType int64_t float uint64_t,
       ExpandExportBatchType int64_t half uint64_t,
       ExpandExportBatchType int64_t bfloat16 uint64_t]⟩,
    ⟨"WeakMemExportBatchIf",
      [ExpandExportBatchIfType int64_t int64_t uint64_t,
       ExpandExportBatchIfType int64_t int32_t uint64_t,
       ExpandExportBatchIfType int64_t int8_t uint64_t,
       ExpandExportBatchIfType int64_t float uint64_t,
       ExpandExportBatchIfType int64_t half uint64_t,
       ExpandExportBatchIfType int64_t bfloat16 uint64_t]⟩,
    ⟨"WeakMemEmpty", [⟨.error_code, []⟩]⟩,
    ⟨"WeakMemSize", [⟨.error_code, []⟩]⟩,
    ⟨"WeakMemCapacity", [⟨.error_code, []⟩]⟩,
    ⟨"WeakMemReserve", [⟨.error_code, [constVal "new_capacity" .size_t]⟩]⟩,
    ⟨"WeakMemSave", [⟨.error_code, [⟨"", true, .YamlNode, false⟩]⟩]⟩,
    ⟨"WeakMemLoad", [⟨.error_code, [⟨"", true, .YamlNode, false⟩]⟩]⟩ ]

/-! ## Dispatch definitions (lines 50-96) -/

/-- One `PRO_DEF_MEM_DISPATCH(name, member)`: the dispatch `name` calls the
member function `member` of the backend. -/
structure MemDispatch where
  name : String
  member : String
  deriving DecidableEq, Repr

/-- One `PRO_DEF_WEAK_DISPATCH(name, base, fallback)`. -/
structure WeakDispatch where
  name : String
  base : String
  fallback : String
  deriving DecidableEq, Repr

/-- The member dispatches, lines 50-72. -/
def memDispatches : List MemDispatch :=
  [ ⟨"MemInit", "init"⟩,
    ⟨"MemDevice", "device"⟩,
    ⟨"MemDim", "dim"⟩,
    ⟨"MemFind", "find"⟩,
    ⟨"MemFindOrInsert", "find_or_insert"⟩,
    ⟨"MemContains", "contains"⟩,
    ⟨"MemAssign", "assign"⟩,
    ⟨"MemAssignValues", "assign_values"⟩,
    ⟨"MemAssignScores", "assign_scores"⟩,
    ⟨"MemInsertAndEvict", "insert_and_evict"⟩,
    ⟨"MemInsertOrAssign", "insert_or_assign"⟩,
    ⟨"MemAccumOrAssign", "accum_or_assign"⟩,
    ⟨"MemErase", "erase"⟩,
    ⟨"MemEraseIf", "erase_if"⟩,
    ⟨"MemClear", "clear"⟩,
    ⟨"MemExportBatch", "export_batch"⟩,
    ⟨"MemExportBatchIf", "export_batch_if"⟩,
    ⟨"MemEmpty", "empty"⟩,
    ⟨"MemSize", "size"⟩,
    ⟨"MemCapacity", "capacity"⟩,
    ⟨"MemReserve", "reserve"⟩,
    ⟨"MemSave", "save"⟩,
    ⟨"MemLoad", "load"⟩ ]

/-- The weak dispatches, lines 74-96. -/
def weakDispatches : List WeakDispatch :=
  [ ⟨"WeakMemInit", "MemInit", "NotImplemented"⟩,
    ⟨"WeakMemDevice", "MemDevice", "NotImplemented"⟩,
    ⟨"WeakMemDim", "MemDim", "NotImplemented"⟩,
    ⟨"WeakMemFind", "MemFind", "NotImplemented"⟩,
    ⟨"WeakMemFindOrInsert", "MemFindOrInsert", "NotImplemented"⟩,
    ⟨"WeakMemContains", "MemContains", "NotImplemented"⟩,
    ⟨"WeakMemAssign", "MemAssign", "NotImplemented"⟩,
    ⟨"WeakMemAssignValues", "MemAssignValues", "NotImplemented"⟩,
    ⟨"WeakMemAssignScores", "MemAssignScores", "NotImplemented"⟩,
    ⟨"WeakMemInsertAndEvict", "MemInsertAndEvict", "NotImplemented"⟩,
    ⟨"WeakMemInsertOrAssign", "MemInsertOrAssign", "NotImplemented"⟩,
    ⟨"WeakMemAccumOrAssign", "MemAccumOrAssign", "NotImplemented"⟩,
    ⟨"WeakMemErase", "MemErase", "NotImplemented"⟩,
    ⟨"WeakMemEraseIf", "MemEraseIf", "NotImplemented"⟩,
    ⟨"WeakMemClear", "MemClear", "NotImplemented"⟩,
    ⟨"WeakMemExportBatch", "MemExportBatch", "NotImplemented"⟩,
    ⟨"WeakMemExportBatchIf", "MemExportBatchIf", "NotImplemented"⟩,
    ⟨"WeakMemEmpty", "MemEmpty", "NotImplemented"⟩,
    ⟨"WeakMemSize", "MemSize", "NotImplemented"⟩,
    ⟨"WeakMemCapacity", "MemCapacity", "NotImplemented"⟩,
    ⟨"WeakMemReserve", "MemReserve", "NotImplemented"⟩,
    ⟨"WeakMemSave", "MemSave", "NotImplemented"⟩,
    ⟨"WeakMemLoad", "MemLoad", "NotImplemented"⟩ ]

/-- The weak dispatch an identifier denotes, when the file defines one. -/
def lookupWeak (ident : String) : Option WeakDispatch :=
  weakDispatches.find? (fun w => w.name == ident)

/-- The member dispatch an identifier denotes, when the file defines one. -/
def lookupMem (ident : String) : Option MemDispatch :=
  memDispatches.find? (fun m => m.name == ident)

/-- The member function a weak dispatch forwards to, through its base. -/
def WeakDispatch.member (w : WeakDispatch) : Option String :=
  (lookupMem w.base).map (fun m => m.member)

/-- The member function a convention of the facade dispatches to: its
dispatch identifier resolved to a weak dispatch, and that one to its member. -/
def Convention.member (c : Convention) : Option String :=
  (lookupWeak c.dispatch).bind (fun w => w.member)

/-- The conventions of the facade that dispatch to member function `op`. -/
def conventionsOf (op : String) : List Convention :=
  StorageInterface.filter (fun c => c.member == some op)

/-! ## The fallback (lines 33-43) -/

/-- The exception type `std::runtime_error`, with its message. -/
structure RuntimeError where
  what : String
  deriving DecidableEq, Repr

/-- How the evaluation of a call ends. -/
inductive Outcome (T : Type)
  | value (v : T)
  | thrown (e : RuntimeError)
  | unreachable
  deriving DecidableEq, Repr

/-- The struct `NotImplemented`; it has no data members. -/
structure NotImplemented where
  deriving DecidableEq, Repr

/-- The constructor `explicit NotImplemented(auto &&...)`: for every argument
pack it throws the `std::runtime_error`, so no object is ever constructed. -/
def NotImplemented.construct {α : Type} (_args : List α) :
    Except RuntimeError NotImplemented :=
  .error ⟨"Not implemented function in storage backend class instance!"⟩

/-- The conversion `template <class T> operator T() const noexcept`: its body
is `std::unreachable()`. -/
def NotImplemented.operatorT {T : Type} (_self : NotImplemented) : Outcome T :=
  .unreachable

/-- The expression `R r = NotImplemented(args...)`: construct the stub from the
arguments, then convert the object to the result type with `conv`. -/
def fallbackCall {α T : Type} (conv : NotImplemented → Outcome T) (args : List α) :
    Outcome T :=
  match NotImplemented.construct args with
  | .error e => .thrown e
  | .ok obj => conv obj

/-- A backend: for each member-function name, its implementation when the
backend has that member. -/
abbrev Backend (α T : Type) := String → Option (List α → Outcome T)

/-- Modelled from the spec: the macro `PRO_DEF_WEAK_DISPATCH` is declared in
`third_party/proxy.h`, which is not among the sources.  Following section 4.3
(the fallback is "bound to any capability a concrete backend omits"), a weak
dispatch calls the member of its base dispatch when the backend has it, and
otherwise calls its fallback with the same arguments.  `none` when the base or
the fallback is not defined in the file. -/
def WeakDispatch.invoke {α T : Type} (w : WeakDispatch) (b : Backend α T)
    (args : List α) : Option (Outcome T) :=
  match w.member with
  | none => none
  | some op =>
    match b op with
    | some impl => some (impl args)
    | none =>
      if w.fallback = "NotImplemented" then
        some (fallbackCall NotImplemented.operatorT args)
      else none

/-- The weak dispatches defined in the file that forward to member `op`. -/
def weakDispatchesOf (op : String) : List WeakDispatch :=
  weakDispatches.filter (fun w => w.member == some op)

/-- The 23 capabilities of the facade, in the order of section 4.1. -/
def capabilities : List String :=
  ["init", "device", "dim", "find", "find_or_insert", "contains", "assign",
   "assign_values", "assign_scores", "insert_and_evict", "insert_or_assign",
   "accum_or_assign", "erase", "erase_if", "clear", "export_batch",
   "export_batch_if", "empty", "size", "capacity", "reserve", "save", "load"]

/-- Invoking capability `op` through the weak dispatch the file defines for it.
`none` when the file does not define exactly one such dispatch. -/
def invokeCapability {α T : Type} (op : String) (b : Backend α T) (args : List α) :
    Option (Outcome T) :=
  match weakDispatchesOf op with
  | [w] => w.invoke b args
  | _ => none

/-- The message of the exception thrown by the fallback. -/
def notImplementedMessage : String :=
  "Not implemented function in storage backend class instance!"

/-- A backend that has none of the members. -/
def emptyBackend : Backend Unit Unit := fun _ => none

/-- The exception that leaves the call when capability `op` is invoked with no
arguments on the backend that has none of the members. -/
def fallbackFailure (op : String) : Option RuntimeError :=
  match invokeCapability op emptyBackend [] with
  | some (.thrown e) => some e
  | _ => none

/-- The exception `e` names `op`: the identifier occurs in the message. -/
def RuntimeError.names (e : RuntimeError) (op : String) : Prop :=
  op.toList <:+: e.what.toList

instance (e : RuntimeError) (op : String) : Decidable (e.names op) := by
  unfold RuntimeError.names; infer_instance

/-! ## Reading signatures -/

/-- The six value-element types of the type dispatch matrix. -/
def valueTypes : List DType :=
  [.int64_t, .int32_t, .int8_t, .float, .half, .bfloat16]

/-- The callee can write through the parameter: a pointer to non-const. -/
def Param.writable (p : Param) : Bool := p.isPointer && !p.isConst

/-- The callee cannot modify what the parameter gives it: declared `const`. -/
def Param.readOnly (p : Param) : Bool := p.isConst

/-- The type of a parameter within the function type. -/
structure ParamType where
  base : Base
  isPointer : Bool
  pointeeConst : Bool
  deriving DecidableEq, Repr

/-- The type a parameter contributes to the function type: the `const` of a
by-value parameter is dropped, the `const` of a pointee is kept. -/
def Param.type (p : Param) : ParamType :=
  ⟨p.base, p.isPointer, p.isPointer && p.isConst⟩

/-- The parameter-type list of a signature. -/
def Signature.paramTypes (s : Signature) : List ParamType :=
  s.params.map Param.type

/-- The parameter of that name, when the signature has one. -/
def Signature.param? (s : Signature) (name : String) : Option Param :=
  s.params.find? (fun p => p.name == name)

/-- The element types of the value buffers (`Eigen::ArrayXX`) of a signature. -/
def Signature.valueElemTypes (s : Signature) : List DType :=
  s.params.filterMap (fun p => match p.base with | .ArrayXX d => some d | _ => none)

/-- The scalar type of a parameter, or the element type of its array. -/
def Param.elem? (p : Param) : Option DType :=
  match p.base with
  | .scalar d => some d
  | .ArrayX d => some d
  | .ArrayXX d => some d
  | .YamlNode => none

/-- Parameter names that carry keys: key buffers and the key pattern. -/
def keyParamNames : List String := ["keys", "missed_keys", "evicted_keys", "pattern"]

/-- Parameter names that carry scores: score buffers and the threshold. -/
def scoreParamNames : List String := ["scores", "evicted_scores", "threshold"]

/-- The same parameter with every value buffer given element type `v`. -/
def Param.retype (v : DType) (p : Param) : Param :=
  match p.base with
  | .ArrayXX _ => { p with base := .ArrayXX v }
  | _ => p

/-- The same signature with every value buffer given element type `v`. -/
def Signature.retype (v : DType) (s : Signature) : Signature :=
  { s with params := s.params.map (Param.retype v) }

/-- The overloads of a convention that have a value buffer of element type `v`. -/
def Convention.instantiation (c : Convention) (v : DType) : List Signature :=
  c.overloads.filter (fun s => decide (v ∈ s.valueElemTypes))

/-- The convention has an overload with a value buffer. -/
def Convention.valueCarrying (c : Convention) : Bool :=
  c.overloads.any (fun s => !s.valueElemTypes.isEmpty)

/-- The signature hands a result other than the status back to the caller:
through the return value or through a writable parameter. -/
def Signature.hasOutput (s : Signature) : Bool :=
  s.ret != .error_code || s.params.any Param.writable

/-! ## The find variants as section 4.1 words them -/

/-- The three parameters every find overload begins with: the batch size,
the read-only keys, the writable values of element type `v`. -/
def findCommonParams (v : DType) : List Param :=
  [constVal "n_keys" .int, constPtr "keys" (.ArrayX .int64_t),
   mutPtr "values" (.ArrayXX v)]

/-- The auxiliary outputs of the find variants, in the order of the header:
none for the plain form; (a) missed keys, missed positions and a missed count;
(b) the same plus scores; (c) an existence mask; (d) scores; (e) an existence
mask and scores. -/
def findVariantOutputs : List (List Param) :=
  [ [],
    [mutPtr "missed_keys" (.ArrayX .int64_t), mutPtr "missed_indices" (.ArrayX .int),
     mutPtr "missed_size" (.scalar .int)],
    [mutPtr "missed_keys" (.ArrayX .int64_t), mutPtr "missed_indices" (.ArrayX .int),
     mutPtr "missed_size" (.scalar .int), mutPtr "scores" (.ArrayX .uint64_t)],
    [mutPtr "exists" (.ArrayX .bool)],
    [mutPtr "scores" (.ArrayX .uint64_t)],
    [mutPtr "exists" (.ArrayX .bool), mutPtr "scores" (.ArrayX .uint64_t)] ]

/-- The parameter lists of the six find variants for value-element type `v`. -/
def findVariantParams (v : DType) : List (List Param) :=
  findVariantOutputs.map (fun aux => findCommonParams v ++ aux)

/-- The parameter lists of a find_or_insert variant family that has the plain
form and the variants (d) scores, (c) existence mask, (e) mask and scores, in
the order of the header. -/
def findOrInsertVariantParams (v : DType) : List (List Param) :=
  [ findCommonParams v,
    findCommonParams v ++ [mutPtr "scores" (.ArrayX .uint64_t)],
    findCommonParams v ++ [mutPtr "exists" (.ArrayX .bool)],
    findCommonParams v ++ [mutPtr "exists" (.ArrayX .bool),
                           mutPtr "scores" (.ArrayX .uint64_t)] ]

/-- All overloads of the conventions that dispatch to member `op`. -/
def overloadsOf (op : String) : List Signature :=
  (conventionsOf op).flatMap (fun c => c.overloads)

/-! ## The fallback stub -/

set_option maxRecDepth 100000

/-- Every capability has exactly one weak dispatch in the file; its fallback
is `NotImplemented` and its base forwards to the member of that name. -/
theorem weakDispatchesOf_capability :
    ∀ op ∈ capabilities, (weakDispatchesOf op).length = 1 ∧
      ∀ w ∈ weakDispatchesOf op, w.fallback = "NotImplemented" ∧ w.member = some op := by
  decide

/-- The weak dispatch of a capability, as an element. -/
theorem weakDispatchesOf_eq_singleton (op : String) (hop : op ∈ capabilities) :
    ∃ w, weakDispatchesOf op = [w] ∧ w.fallback = "NotImplemented" ∧
      w.member = some op := by
  obtain ⟨hlen, hall⟩ := weakDispatchesOf_capability op hop
  match hw : weakDispatchesOf op, hlen with
  | [w], _ =>
    have hmem : w ∈ weakDispatchesOf op := by rw [hw]; exact List.mem_singleton_self w
    exact ⟨w, rfl, hall w hmem⟩

/-- The construction of the stub throws, so no conversion is applied to it. -/
theorem fallbackCall_thrown {α T : Type} (conv : NotImplemented → Outcome T)
    (args : List α) : fallbackCall conv args = .thrown ⟨notImplementedMessage⟩ := by
  rfl

/-- Invoking a capability the backend omits ends in the exception of the stub. -/
theorem invokeCapability_omitted {α T : Type} (op : String) (hop : op ∈ capabilities)
    (b : Backend α T) (hb : b op = none) (args : List α) :
    invokeCapability op b args = some (.thrown ⟨notImplementedMessage⟩) := by
  obtain ⟨w, hw, hfb, hmem⟩ := weakDispatchesOf_eq_singleton op hop
  simp [invokeCapability, hw, WeakDispatch.invoke, hmem, hb, hfb, fallbackCall_thrown]

/-- Claim C1. The members named by the member dispatches are the 23
capabilities.  For each of them, every backend that omits it and every
argument list, the invocation runs the fallback of the one weak dispatch the
file defines for it, and ends with the runtime failure thrown by the
`NotImplemented` constructor: it yields no value (so no success status) and
does not reach `std::unreachable()`.  The outcome is the same whatever the
conversion to the result type would do, so that conversion is never run. -/
theorem C1_fallback_always_throws {α T : Type} (op : String)
    (hop : op ∈ memDispatches.map (fun m => m.member))
    (b : Backend α T) (hb : b op = none) (args : List α) :
    memDispatches.map (fun m => m.member) = capabilities ∧
    (∃ w, weakDispatchesOf op = [w] ∧ w.fallback = "NotImplemented" ∧
      w.invoke b args = some (.thrown ⟨notImplementedMessage⟩)) ∧
    invokeCapability op b args = some (.thrown ⟨notImplementedMessage⟩) ∧
    (∀ v : T, invokeCapability op b args ≠ some (.value v)) ∧
    invokeCapability op b args ≠ some .unreachable ∧
    (∀ conv : NotImplemented → Outcome T,
      fallbackCall conv args = .thrown ⟨notImplementedMessage⟩) := by
  have hcaps : memDispatches.map (fun m => m.member) = capabilities := by decide
  have hop2 : op ∈ capabilities := hcaps ▸ hop
  have hinv := invokeCapability_omitted op hop2 b hb args
  obtain ⟨w, hw, hfb, hmem⟩ := weakDispatchesOf_eq_singleton op hop2
  refine ⟨hcaps, ⟨w, hw, hfb, ?_⟩, hinv, ?_, ?_, fun conv => fallbackCall_thrown conv args⟩
  · simp [WeakDispatch.invoke, hmem, hb, hfb, fallbackCall_thrown]
  · intro v; rw [hinv]; simp
  · rw [hinv]; simp

/-- Witness of C1: `find` with three arguments on the backend without members. -/
theorem C1_fallback_always_throws_witness :
    invokeCapability "find" (fun _ => none : Backend Nat Unit) [3, 0, 0]
      = some (.thrown ⟨notImplementedMessage⟩) :=
  (C1_fallback_always_throws "find" (by decide) (fun _ => none) rfl [3, 0, 0]).2.2.1

/-- Claim C2, refuted as stated: `init` and `find` are different capabilities,
yet the failures raised by their fallbacks are one and the same exception,
whose message names neither of them. -/
theorem C2_failures_not_distinct :
    "init" ∈ capabilities ∧ "find" ∈ capabilities ∧ "init" ≠ "find" ∧
    fallbackFailure "init" = some ⟨notImplementedMessage⟩ ∧
    fallbackFailure "find" = some ⟨notImplementedMessage⟩ ∧
    fallbackFailure "init" = fallbackFailure "find" ∧
    ¬ (⟨notImplementedMessage⟩ : RuntimeError).names "init" ∧
    ¬ (⟨notImplementedMessage⟩ : RuntimeError).names "find" := by
  decide

/-- Claim C2, amended. For every two capabilities, backends that omit them and
argument lists, the fallbacks raise the same failure: the runtime failure with
the fixed message of the `NotImplemented` constructor, which names no
capability. -/
theorem C2_failure_is_fixed_message {α T : Type} (X Y : String)
    (hX : X ∈ capabilities) (hY : Y ∈ capabilities)
    (bX bY : Backend α T) (hbX : bX X = none) (hbY : bY Y = none)
    (argsX argsY : List α) :
    invokeCapability X bX argsX = some (.thrown ⟨notImplementedMessage⟩) ∧
    invokeCapability X bX argsX = invokeCapability Y bY argsY ∧
    notImplementedMessage = "Not implemented function in storage backend class instance!" ∧
    ∀ op ∈ capabilities, ¬ (⟨notImplementedMessage⟩ : RuntimeError).names op := by
  refine ⟨invokeCapability_omitted X hX bX hbX argsX, ?_, rfl, by decide⟩
  rw [invokeCapability_omitted X hX bX hbX argsX, invokeCapability_omitted Y hY bY hbY argsY]

/-- Witness of the amended C2: `erase` and `save` on backends without members. -/
theorem C2_failure_is_fixed_message_witness :
    invokeCapability "erase" (fun _ => none : Backend Nat Unit) [1, 7]
      = invokeCapability "save" (fun _ => none : Backend Nat Unit) [0] :=
  (C2_failure_is_fixed_message "erase" "save" (by decide) (by decide)
    (fun _ => none) (fun _ => none) rfl rfl [1, 7] [0]).2.1

/-! ## The conventions of the facade -/

/-- Claim C3, evaluated on the facade. The seventh convention, which carries the
`ExpandAssignValuesType` overloads, names the dispatch `WeakMemAssignValue`; the
file defines no dispatch of that name, so no convention resolves to
`assign_values`.  The weak dispatch defined for `assign_values` is
`WeakMemAssignValues`, which no convention names.  Every other capability has
exactly one convention, and every other convention resolves to a weak dispatch
of the file with fallback `NotImplemented`. -/
theorem C3_assign_values_convention_unresolved :
    (StorageInterface.map (fun c => c.dispatch)).get? 6 = some "WeakMemAssignValue" ∧
    lookupWeak "WeakMemAssignValue" = none ∧
    conventionsOf "assign_values" = [] ∧
    weakDispatchesOf "assign_values"
      = [⟨"WeakMemAssignValues", "MemAssignValues", "NotImplemented"⟩] ∧
    "WeakMemAssignValues" ∉ StorageInterface.map (fun c => c.dispatch) ∧
    StorageInterface.length = 23 ∧
    (∀ op ∈ capabilities, op ≠ "assign_values" → (conventionsOf op).length = 1) ∧
    (∀ c ∈ StorageInterface, c.dispatch ≠ "WeakMemAssignValue" →
      ∃ w ∈ weakDispatches, lookupWeak c.dispatch = some w ∧
        w.fallback = "NotImplemented" ∧ c.member = w.member ∧
        c.member ∈ capabilities.map some) := by
  decide

/-! ## The type dispatch matrix -/

/-- Claim C4. Nine conventions of the facade carry a value buffer: those of
find, assign, assign_values (written with the dispatch `WeakMemAssignValue`),
find_or_insert, insert_and_evict, insert_or_assign, accum_or_assign,
export_batch and export_batch_if; all but the third resolve to the member of
that name.  The overloads of each are its
instantiations for the six value-element types int64, int32, int8, float, half
and bfloat16, one after the other and without repetition; the instantiation
for one type is not empty and turns into the instantiation for any other by
exchanging the element type.  Every overload has value buffers of one single
element type, one of the six.  In every overload of every convention a key
buffer or key pattern has type int64 and a score buffer or score threshold has
type uint64. -/
theorem C4_type_matrix_uniform :
    (StorageInterface.filter Convention.valueCarrying).map (fun c => c.dispatch)
      = ["WeakMemFind", "WeakMemAssign", "WeakMemAssignValue", "WeakMemFindOrInsert",
         "WeakMemInsertAndEvict", "WeakMemInsertOrAssign", "WeakMemAccumOrAssign",
         "WeakMemExportBatch", "WeakMemExportBatchIf"] ∧
    (StorageInterface.filter Convention.valueCarrying).map Convention.member
      = [some "find", some "assign", none, some "find_or_insert",
         some "insert_and_evict", some "insert_or_assign", some "accum_or_assign",
         some "export_batch", some "export_batch_if"] ∧
    overloadsOf "assign_scores" = [ExpandAssignScoresType .int64_t .uint64_t] ∧
    valueTypes.Nodup ∧ valueTypes.length = 6 ∧
    (∀ c ∈ StorageInterface, c.valueCarrying = true →
      c.overloads = valueTypes.flatMap c.instantiation ∧ c.overloads.Nodup ∧
      (∀ v ∈ valueTypes, c.instantiation v ≠ [] ∧
        ∀ w ∈ valueTypes,
          (c.instantiation v).map (Signature.retype w) = c.instantiation w) ∧
      (∀ s ∈ c.overloads, ∃ v ∈ valueTypes,
        s.valueElemTypes ≠ [] ∧ ∀ d ∈ s.valueElemTypes, d = v)) ∧
    (∀ c ∈ StorageInterface, ∀ s ∈ c.overloads, ∀ p ∈ s.params,
      (p.name ∈ keyParamNames → p.elem? = some .int64_t) ∧
      (p.name ∈ scoreParamNames → p.elem? = some .uint64_t)) ∧
    (ExpandInsertAndEvictType .int64_t .half .uint64_t).valueElemTypes = [.half, .half] := by
  decide

/-- Claim C5. The facade has one convention for find.  For every one of the
six value-element types it has exactly six overloads of that type, whose
parameter lists are, in order, the plain form and the variants (a) to (e): all
begin with the batch size, the read-only keys and the writable values of that
element type, and are followed only by the auxiliary outputs of the variant,
each of them writable. -/
theorem C5_find_six_variants :
    (conventionsOf "find").length = 1 ∧
    (∀ c ∈ conventionsOf "find", c.overloads.length = 36 ∧
      ∀ v ∈ valueTypes,
        (c.instantiation v).length = 6 ∧
        (c.instantiation v).map (fun s => s.params) = findVariantParams v ∧
        ∀ s ∈ c.instantiation v,
          s.params.take 3 = findCommonParams v ∧
          s.params.drop 3 ∈ findVariantOutputs ∧
          ∀ p ∈ s.params.drop 3, p.writable = true) ∧
    findVariantOutputs.Nodup ∧
    (∀ v ∈ valueTypes,
      (findCommonParams v).map (fun p => (p.readOnly, p.writable))
        = [(true, false), (true, false), (false, true)]) := by
  decide

/-- Claim C6, refuted as stated: the find overload of variant (a) for int64
values, with missed keys, missed positions and a missed count, is an overload
of find, and no overload of find_or_insert has its parameter list; nor has any
overload of find_or_insert the parameter-type list of it. -/
theorem C6_find_or_insert_lacks_miss_variant :
    ExpandFindWithMissType .int64_t .int64_t ∈ overloadsOf "find" ∧
    (ExpandFindWithMissType .int64_t .int64_t).params
      ∉ (overloadsOf "find_or_insert").map (fun s => s.params) ∧
    (ExpandFindWithMissType .int64_t .int64_t).paramTypes
      ∉ (overloadsOf "find_or_insert").map Signature.paramTypes ∧
    (overloadsOf "find").length = 36 ∧ (overloadsOf "find_or_insert").length = 24 := by
  decide

/-- Claim C6, amended. The facade has one convention for find_or_insert.  For
every one of the six value-element types it has exactly four overloads of that
type: the plain form and the variants with scores, with an existence mask, and
with mask and scores.  Each has the parameter list of a find overload; the
find overloads without a find_or_insert counterpart are those that report
missed keys, variants (a) and (b). -/
theorem C6_find_or_insert_four_variants :
    (conventionsOf "find_or_insert").length = 1 ∧
    (∀ c ∈ conventionsOf "find_or_insert", c.overloads.length = 24 ∧
      ∀ v ∈ valueTypes,
        (c.instantiation v).map (fun s => s.params) = findOrInsertVariantParams v) ∧
    (∀ s ∈ overloadsOf "find_or_insert",
      s.params ∈ (overloadsOf "find").map (fun t => t.params)) ∧
    (∀ t ∈ overloadsOf "find",
      (t.params ∈ (overloadsOf "find_or_insert").map (fun s => s.params)
        ↔ t.param? "missed_keys" = none)) := by
  decide

/-! ## Return types and occupancy -/

/-- Claim C7. Every overload of every convention of the facade other than the
one of device returns `std::error_code`; the convention of device has one
overload, which returns `std::expected<DeviceType, std::error_code>`: a device
descriptor or a value of that same status type. -/
theorem C7_uniform_status (c : Convention) (hc : c ∈ StorageInterface)
    (s : Signature) (hs : s ∈ c.overloads) :
    (c.dispatch ≠ "WeakMemDevice" → s.ret = .error_code) ∧
    (c.dispatch = "WeakMemDevice" → s.ret = .expected .DeviceType .error_code) ∧
    conventionsOf "device"
      = [⟨"WeakMemDevice", [⟨.expected .DeviceType .error_code, []⟩]⟩] := by
  have h : ∀ c ∈ StorageInterface, ∀ s ∈ c.overloads,
      (c.dispatch ≠ "WeakMemDevice" → s.ret = .error_code) ∧
      (c.dispatch = "WeakMemDevice" → s.ret = .expected .DeviceType .error_code) := by
    decide
  exact ⟨(h c hc s hs).1, (h c hc s hs).2, by decide⟩

/-- Witness of C7: the overload of find with an existence mask for float. -/
theorem C7_uniform_status_witness :
    (ExpandFindWithExistType .int64_t .float).ret = .error_code :=
  (C7_uniform_status
    ⟨"WeakMemFind",
      ExpandFindType .int64_t .int64_t .uint64_t ++
      ExpandFindType .int64_t .int32_t .uint64_t ++
      ExpandFindType .int64_t .int8_t .uint64_t ++
      ExpandFindType .int64_t .float .uint64_t ++
      ExpandFindType .int64_t .half .uint64_t ++
      ExpandFindType .int64_t .bfloat16 .uint64_t⟩ (by decide)
    (ExpandFindWithExistType .int64_t .float) (by decide)).1 (by decide)

/-- Claim C8, refuted as stated: the conventions of size and of capacity have
one overload each, `std::error_code()`; it returns the status alone and has no
parameter, so its signature hands no count to the caller. -/
theorem C8_size_capacity_report_no_count :
    conventionsOf "size" = [⟨"WeakMemSize", [⟨.error_code, []⟩]⟩] ∧
    conventionsOf "capacity" = [⟨"WeakMemCapacity", [⟨.error_code, []⟩]⟩] ∧
    (∀ s ∈ overloadsOf "size", s.hasOutput = false) ∧
    (∀ s ∈ overloadsOf "capacity", s.hasOutput = false) := by
  decide

/-- Claim C8, amended. The signatures of size and capacity, like those of
empty and dim, take no parameter and return the status alone; reserve has one
overload, whose single parameter is the new capacity, a read-only `size_t`
passed by value, and which returns the status. -/
theorem C8_occupancy_signatures :
    overloadsOf "size" = [⟨.error_code, []⟩] ∧
    overloadsOf "capacity" = [⟨.error_code, []⟩] ∧
    overloadsOf "empty" = [⟨.error_code, []⟩] ∧
    overloadsOf "dim" = [⟨.error_code, []⟩] ∧
    overloadsOf "reserve" = [⟨.error_code, [constVal "new_capacity" .size_t]⟩] ∧
    (∀ s ∈ overloadsOf "reserve", ∀ p ∈ s.params,
      p.readOnly = true ∧ p.isPointer = false ∧ p.writable = false) := by
  decide

/-! ## Export -/

/-- Claim C9, evaluated on the facade. In each of the six overloads of
export_batch and of export_batch_if the values and scores buffers and
exported_batch_size are pointers to non-const, and max_batch_size and
cursor_offset (and pattern and threshold of export_batch_if) are const and
passed by value; the keys buffer, however, is a pointer to const
(`const Eigen::ArrayX<int64_t> *keys`), so the backend cannot fill it.  The
other key outputs of the facade, missed_keys of find and evicted_keys of
insert_and_evict, are pointers to non-const. -/
theorem C9_export_keys_read_only :
    (overloadsOf "export_batch").length = 6 ∧
    (overloadsOf "export_batch_if").length = 6 ∧
    (∀ s ∈ overloadsOf "export_batch" ++ overloadsOf "export_batch_if",
      s.param? "keys" = some (constPtr "keys" (.ArrayX .int64_t)) ∧
      (∀ p ∈ s.params, p.name = "keys" → p.writable = false ∧ p.readOnly = true) ∧
      (∀ p ∈ s.params, p.name ∈ ["values", "scores", "exported_batch_size"] →
        p.writable = true) ∧
      (∀ p ∈ s.params,
        p.name ∈ ["max_batch_size", "cursor_offset", "pattern", "threshold"] →
        p.readOnly = true ∧ p.isPointer = false) ∧
      (s.params.map (fun p => p.name)).Nodup ∧
      ["max_batch_size", "cursor_offset", "exported_batch_size", "keys", "values",
        "scores"] ⊆ s.params.map (fun p => p.name)) ∧
    (∀ s ∈ overloadsOf "export_batch_if",
      ["pattern", "threshold"] ⊆ s.params.map (fun p => p.name)) ∧
    (∀ c ∈ StorageInterface, ∀ s ∈ c.overloads, ∀ p ∈ s.params,
      p.name ∈ ["missed_keys", "evicted_keys"] → p.writable = true) ∧
    (ExpandExportBatchType .int64_t .int64_t .uint64_t).param? "keys"
      = some ⟨"keys", true, .ArrayX .int64_t, true⟩ := by
  decide

/-! ## Overload selection -/

/-- When the images of a list under `f` are pairwise different, at most one
element has a given image. -/
theorem filter_length_le_one_of_nodup_map {α β : Type} [DecidableEq β] (f : α → β)
    (t : β) :
    ∀ l : List α, (l.map f).Nodup → (l.filter (fun a => decide (f a = t))).length ≤ 1
  | [], _ => by simp
  | a :: l, h => by
    rw [List.map_cons, List.nodup_cons] at h
    have ih := filter_length_le_one_of_nodup_map f t l h.2
    by_cases hat : f a = t
    · have hnil : l.filter (fun a => decide (f a = t)) = [] := by
        rw [List.filter_eq_nil_iff]
        intro b hb hbt
        apply h.1
        have hbt2 : f b = t := by simpa using hbt
        rw [hat, ← hbt2]
        exact List.mem_map_of_mem f hb
      simp [List.filter_cons, hat, hnil]
    · simpa [List.filter_cons, hat] using ih

/-- Claim C10. Within every convention of the facade the parameter-type lists
of the overloads are pairwise different, so for every list of argument types
at most one overload of the convention has exactly these parameter types.  The
conventions with value buffers have 36 overloads for find, 24 for
find_or_insert and 6 for each of the other seven. -/
theorem C10_overloads_distinct (c : Convention) (hc : c ∈ StorageInterface)
    (tys : List ParamType) :
    (c.overloads.map Signature.paramTypes).Nodup ∧
    (c.overloads.filter (fun s => decide (s.paramTypes = tys))).length ≤ 1 ∧
    (StorageInterface.filter Convention.valueCarrying).map
        (fun c => (c.dispatch, (c.overloads.map Signature.paramTypes).length))
      = [("WeakMemFind", 36), ("WeakMemAssign", 6), ("WeakMemAssignValue", 6),
         ("WeakMemFindOrInsert", 24), ("WeakMemInsertAndEvict", 6),
         ("WeakMemInsertOrAssign", 6), ("WeakMemAccumOrAssign", 6),
         ("WeakMemExportBatch", 6), ("WeakMemExportBatchIf", 6)] := by
  have h : ∀ c ∈ StorageInterface, (c.overloads.map Signature.paramTypes).Nodup := by
    decide
  exact ⟨h c hc, filter_length_le_one_of_nodup_map Signature.paramTypes tys _ (h c hc),
    by decide⟩

/-- Witness of C10, at the convention of find with its 36 overloads: their
parameter-type lists are pairwise different, and the argument types of the
variant with an existence mask for float values (batch size, read-only keys,
writable float values, writable mask) select at most one of the 36 overloads;
they select the overload `ExpandFindWithExistType(int64_t, float)` and no
other. -/
theorem C10_overloads_distinct_witness :
    (⟨"WeakMemFind",
        ExpandFindType .int64_t .int64_t .uint64_t ++
        ExpandFindType .int64_t .int32_t .uint64_t ++
        ExpandFindType .int64_t .int8_t .uint64_t ++
        ExpandFindType .int64_t .float .uint64_t ++
        ExpandFindType .int64_t .half .uint64_t ++
        ExpandFindType .int64_t .bfloat16 .uint64_t⟩ : Convention) ∈ StorageInterface ∧
    (((ExpandFindType .int64_t .int64_t .uint64_t ++
        ExpandFindType .int64_t .int32_t .uint64_t ++
        ExpandFindType .int64_t .int8_t .uint64_t ++
        ExpandFindType .int64_t .float .uint64_t ++
        ExpandFindType .int64_t .half .uint64_t ++
        ExpandFindType .int64_t .bfloat16 .uint64_t).map Signature.paramTypes).Nodup) ∧
    ((ExpandFindType .int64_t .int64_t .uint64_t ++
        ExpandFindType .int64_t .int32_t .uint64_t ++
        ExpandFindType .int64_t .int8_t .uint64_t ++
        ExpandFindType .int64_t .float .uint64_t ++
        ExpandFindType .int64_t .half .uint64_t ++
        ExpandFindType .int64_t .bfloat16 .uint64_t).filter
      (fun s => decide (s.paramTypes
        = [⟨.scalar .int, false, false⟩, ⟨.ArrayX .int64_t, true, true⟩,
           ⟨.ArrayXX .float, true, false⟩, ⟨.ArrayX .bool, true, false⟩]))).length ≤ 1 ∧
    (ExpandFindType .int64_t .int64_t .uint64_t ++
        ExpandFindType .int64_t .int32_t .uint64_t ++
        ExpandFindType .int64_t .int8_t .uint64_t ++
        ExpandFindType .int64_t .float .uint64_t ++
        ExpandFindType .int64_t .half .uint64_t ++
        ExpandFindType .int64_t .bfloat16 .uint64_t).filter
      (fun s => decide (s.paramTypes
        = [⟨.scalar .int, false, false⟩, ⟨.ArrayX .int64_t, true, true⟩,
           ⟨.ArrayXX .float, true, false⟩, ⟨.ArrayX .bool, true, false⟩]))
      = [ExpandFindWithExistType .int64_t .float] :=
  ⟨by decide,
   (C10_overloads_distinct
      ⟨"WeakMemFind",
        ExpandFindType .int64_t .int64_t .uint64_t ++
        ExpandFindType .int64_t .int32_t .uint64_t ++
        ExpandFindType .int64_t .int8_t .uint64_t ++
        ExpandFindType .int64_t .float .uint64_t ++
        ExpandFindType .int64_t .half .uint64_t ++
        ExpandFindType .int64_t .bfloat16 .uint64_t⟩ (by decide)
      [⟨.scalar .int, false, false⟩, ⟨.ArrayX .int64_t, true, true⟩,
       ⟨.ArrayXX .float, true, false⟩, ⟨.ArrayX .bool, true, false⟩]).1,
   (C10_overloads_distinct
      ⟨"WeakMemFind",
        ExpandFindType .int64_t .int64_t .uint64_t ++
        ExpandFindType .int64_t .int32_t .uint64_t ++
        ExpandFindType .int64_t .int8_t .uint64_t ++
        ExpandFindType .int64_t .float .uint64_t ++
        ExpandFindType .int64_t .half .uint64_t ++
        ExpandFindType .int64_t .bfloat16 .uint64_t⟩ (by decide)
      [⟨.scalar .int, false, false⟩, ⟨.ArrayX .int64_t, true, true⟩,
       ⟨.ArrayXX .float, true, false⟩, ⟨.ArrayX .bool, true, false⟩]).2.1,
   by decide⟩

end MeepoEmbedding.Storage
